import Mathlib

/-!
Verification development for the credibility-checker API
(`src/api/search.js`, threshold variant, and the unnamed decision-tree
variant of the same endpoint).  JavaScript strings are modelled as Lean
`String`s, regex membership tests as executable scanners over the
character list, machine integers as `Int`, exceptions as `Option`, and
the impure platform primitives (wall clock, `Date.parse`, WHATWG URL
parsing) as an explicit environment record.
-/

/-- Characters recognised by the `\s` regex class (ASCII fragment). -/
def jsIsWs (c : Char) : Bool :=
  c = ' ' || c = '\t' || c = '\n' || c = '\r' || c = Char.ofNat 11 || c = Char.ofNat 12

/-- ASCII decimal digit, the `\d` regex class. -/
def jsIsDigit (c : Char) : Bool := '0' ≤ c && c ≤ '9'

/-- Lowercase a character list (model of the `i` regex flag / `toLowerCase`). -/
def lowerL (l : List Char) : List Char := l.map Char.toLower

/-- Does the first list occur as a prefix of the second? -/
def startsWithL : List Char → List Char → Bool
  | [], _ => true
  | _ :: _, [] => false
  | p :: ps, c :: cs => p = c && startsWithL ps cs

/-- Strip an expected literal from the front of a stream, or fail. -/
def stripL : List Char → List Char → Option (List Char)
  | [], cs => some cs
  | _ :: _, [] => none
  | p :: ps, c :: cs => if p = c then stripL ps cs else none

/-- Substring occurrence (contiguous), the semantics of `regex.test` for a literal. -/
def containsL (hay pat : List Char) : Bool :=
  match hay with
  | [] => pat.isEmpty
  | _ :: rest => startsWithL pat hay || containsL rest pat

/-- Case-insensitive test of an alternation of literal words, e.g. `/opinion|editorial/i.test(s)`. -/
def testAnyCI (hay : String) (words : List String) : Bool :=
  words.any (fun w => containsL (lowerL hay.data) (lowerL w.data))

/-- Match `w1` + whitespace gap + `w2` starting exactly at the head of `cs`
(`needGap = true` for `\s+`, `false` for `\s*`). -/
def gapHere (w1 w2 : List Char) (needGap : Bool) (cs : List Char) : Bool :=
  match stripL w1 cs with
  | none => false
  | some r =>
    let ws := r.takeWhile jsIsWs
    let r2 := r.dropWhile jsIsWs
    (!needGap || !ws.isEmpty) && (stripL w2 r2).isSome

/-- Search the stream for a `w1 (\s-gap) w2` occurrence. -/
def gapSearch (cs w1 w2 : List Char) (needGap : Bool) : Bool :=
  match cs with
  | [] => false
  | _ :: rest => gapHere w1 w2 needGap cs || gapSearch rest w1 w2 needGap

/-- Case-insensitive test of `w1\s*w2` (or `w1\s+w2`) against a string. -/
def gapTestCI (hay w1 w2 : String) (needGap : Bool) : Bool :=
  gapSearch (lowerL hay.data) (lowerL w1.data) (lowerL w2.data) needGap

/-- Count non-overlapping leftmost matches of a pattern matcher, the semantics of
`s.match(re_with_g_flag).length`; the matcher returns the remainder after a match.
The fuel argument (instantiated with the stream length) only serves termination:
every matcher below consumes at least one character on success. -/
def scanCount (f : List Char → Option (List Char)) : Nat → List Char → Nat
  | 0, _ => 0
  | _, [] => 0
  | fuel + 1, c :: rest =>
    match f (c :: rest) with
    | some rem => 1 + scanCount f fuel rem
    | none => scanCount f fuel rest

/-- The `[^\s"'<)]` character class of the DOI regex. -/
def doiTailChar (c : Char) : Bool :=
  !(jsIsWs c) && c ≠ '"' && c ≠ '\'' && c ≠ '<' && c ≠ ')'

/-- Match `doi\.org\/\d+\.\d+\/[^\s"'<)]+` at the head of a lowercased stream,
returning the remainder after the greedy match. -/
def doiMatchHere (cs : List Char) : Option (List Char) :=
  match stripL "doi.org/".data cs with
  | none => none
  | some r1 =>
    let d1 := r1.takeWhile jsIsDigit
    let r2 := r1.dropWhile jsIsDigit
    if d1.isEmpty then none else
    match r2 with
    | '.' :: r3 =>
      let d2 := r3.takeWhile jsIsDigit
      let r4 := r3.dropWhile jsIsDigit
      if d2.isEmpty then none else
      match r4 with
      | '/' :: r5 =>
        let t := r5.takeWhile doiTailChar
        let r6 := r5.dropWhile doiTailChar
        if t.isEmpty then none else some r6
      | _ => none
    | _ => none

/-- The `[a-z0-9.-]` class of the gov/edu/int URL regex (stream already lowercased). -/
def hostRunChar (c : Char) : Bool :=
  ('a' ≤ c && c ≤ 'z') || jsIsDigit c || c = '.' || c = '-'

/-- The `[a-z.]` class of the optional trailing group. -/
def azDotChar (c : Char) : Bool := ('a' ≤ c && c ≤ 'z') || c = '.'

/-- Is a proper, nonempty-prefixed suffix of the host run of the form
`.gov`/`.edu`/`.int`, optionally followed by `.` and an `[a-z.]+` tail?
(The backtracking success condition of `\.(gov|edu|int)(\.[a-z.]+)?` given
that the whole run must be consumed before the terminating `/`.) -/
def govSuffixOk (s : List Char) : Bool :=
  s = ".gov".data || s = ".edu".data || s = ".int".data ||
  (match stripL ".gov.".data s with
   | some y => !y.isEmpty && y.all azDotChar
   | none => false) ||
  (match stripL ".edu.".data s with
   | some y => !y.isEmpty && y.all azDotChar
   | none => false) ||
  (match stripL ".int.".data s with
   | some y => !y.isEmpty && y.all azDotChar
   | none => false)

/-- Does some split of the run (with at least one leading character) satisfy
`govSuffixOk`? -/
def govDecomp : List Char → Bool
  | [] => false
  | _ :: rest => govSuffixOk rest || govDecomp rest

/-- Match `https?:\/\/[a-z0-9.-]+\.(gov|edu|int)(\.[a-z.]+)?\/` at the head of a
lowercased stream, returning the remainder after the match. -/
def govMatchHere (cs : List Char) : Option (List Char) :=
  match stripL "http".data cs with
  | none => none
  | some r1 =>
    let r2 := match r1 with
      | 's' :: t => t
      | t => t
    match stripL "://".data r2 with
    | none => none
    | some r3 =>
      let run := r3.takeWhile hostRunChar
      let r4 := r3.dropWhile hostRunChar
      match r4 with
      | '/' :: r5 => if !run.isEmpty && govDecomp run then some r5 else none
      | _ => none

/-- Number of DOI-link matches in the raw content (`html.match(doiRe)||[]).length`). -/
def doiCount (html : String) : Nat :=
  scanCount doiMatchHere (lowerL html.data).length (lowerL html.data)

/-- Number of gov/edu/int URL matches in the raw content. -/
def govEdCount (html : String) : Nat :=
  scanCount govMatchHere (lowerL html.data).length (lowerL html.data)

/-- JS `String.prototype.trim` (ASCII whitespace fragment). -/
def jsTrimL (s : List Char) : List Char :=
  ((s.dropWhile jsIsWs).reverse.dropWhile jsIsWs).reverse

/-- Whitespace-separated tokens: `s.split(/\s+/).filter(Boolean)`. -/
def splitWsAux : Nat → List Char → List (List Char)
  | 0, _ => []
  | fuel + 1, cs =>
    match cs.dropWhile jsIsWs with
    | [] => []
    | c :: rest =>
      (c :: rest).takeWhile (fun x => !jsIsWs x)
        :: splitWsAux fuel ((c :: rest).dropWhile (fun x => !jsIsWs x))

/-- Whitespace-separated tokens of a character list. -/
def splitWsTokens (cs : List Char) : List (List Char) := splitWsAux (cs.length + 1) cs

/-- First element kept, duplicates dropped: `[...new Set(arr)]`. -/
def eraseDupsFirstAux (seen : List String) : List String → List String
  | [] => []
  | x :: xs =>
    if seen.contains x then eraseDupsFirstAux seen xs
    else x :: eraseDupsFirstAux (x :: seen) xs

/-- `[...new Set(arr)]`: deduplicate keeping first occurrences. -/
def eraseDupsFirst (l : List String) : List String := eraseDupsFirstAux [] l

/-- `arr[0] || fallback` on a reason list: head unless absent or empty. -/
def headOr (l : List String) (d : String) : String :=
  match l with
  | [] => d
  | s :: _ => if s = "" then d else s

/-- Abstract JavaScript platform primitives used by the source: the wall clock
(`Date.now()` in ms), the engine's date parser (`Date.parse`, ms since epoch,
`none` for `NaN`), and WHATWG URL hostname extraction (`new URL(u).hostname`,
`none` when the constructor throws on a malformed URL). -/
structure JsEnv where
  now : Int
  dateParse : String → Option Int
  urlHostname : String → Option String

/-- `Date.parse` including the specified `NaN` result on the empty string. -/
def dateParseJs (env : JsEnv) (s : String) : Option Int :=
  if s = "" then none else env.dateParse s

/-- `h.replace(/^www\./, '')`. -/
def stripWww (h : String) : String :=
  match stripL "www.".data h.data with
  | some r => ⟨r⟩
  | none => h

/-- `hostOf` from the source: hostname of the URL with a leading `www.`
stripped, or `""` when URL parsing throws. -/
def hostOf (env : JsEnv) (u : String) : String :=
  match env.urlHostname u with
  | some h => stripWww h
  | none => ""

/-- Curated Tier-1 core institution domains (identical in both source files). -/
def TIER1_CORE : List String :=
  ["who.int", "un.org", "worldbank.org", "unesco.org", "unicef.org", "oecd.org", "imf.org",
   "nih.gov", "ncbi.nlm.nih.gov", "cdc.gov", "nasa.gov", "nist.gov", "epa.gov", "fda.gov",
   "europa.eu", "ec.europa.eu", "ema.europa.eu", "ecdc.europa.eu",
   "psa.gov.ph", "pids.gov.ph", "ched.gov.ph", "neda.gov.ph", "dost.gov.ph", "dict.gov.ph",
   "deped.gov.ph", "doh.gov.ph"]

/-- Curated Tier-2 scholarly index domains. -/
def TIER2_INDEXES : List String :=
  ["pubmed.ncbi.nlm.nih.gov", "pmc.ncbi.nlm.nih.gov", "doi.org", "openalex.org", "crossref.org"]

/-- Curated Tier-3 publisher domains. -/
def TIER3_PUBLISHERS : List String :=
  ["nature.com", "science.org", "thelancet.com", "nejm.org", "bmj.com", "plos.org",
   "jamanetwork.com", "springer.com", "link.springer.com", "onlinelibrary.wiley.com",
   "tandfonline.com", "ieeexplore.ieee.org", "dl.acm.org", "arxiv.org", "ieee.org",
   "jstor.org", "sagepub.com", "cambridge.org", "oup.com", "academic.oup.com"]

/-- JS `String.prototype.endsWith`. -/
def endsWithJs (s post : String) : Bool := post.data.isSuffixOf s.data

/-- One curated-entry comparison from the source: `host === t || host.endsWith("." + t)`. -/
def entryMatch (host t : String) : Bool := host == t || endsWithJs host ("." ++ t)

/-- The scope-independent government/education suffix test
`h.endsWith(".gov") || h.endsWith(".edu") || h.endsWith(".int") || h.endsWith(".gov.ph")`. -/
def govEduSuffix (h : String) : Bool :=
  endsWithJs h ".gov" || endsWithJs h ".edu" || endsWithJs h ".int" || endsWithJs h ".gov.ph"

/-- `isTrustedHost(host, scope)` from `src/api/search.js`. -/
def isTrustedHost (host scope : String) : Bool :=
  if host == "" then false
  else
    let govEdu := govEduSuffix host
    if scope == "strict" then govEdu || TIER1_CORE.any (entryMatch host)
    else if scope == "wide" then
      if govEdu then true
      else if TIER1_CORE.any (entryMatch host) then true
      else if TIER2_INDEXES.any (entryMatch host) then true
      else if TIER3_PUBLISHERS.any (entryMatch host) then true
      else false
    else true

/-- A discovery-provider candidate `{title, url}`. -/
structure Candidate where
  title : String
  url : String
deriving DecidableEq

/-- Page metadata as produced by `getPageMeta` (the network layer is abstracted
away; every field may be empty, and `pdf` marks a PDF response whose body was
not parsed). -/
structure PageMeta where
  url : String
  title : String
  author : String
  published : String
  modified : String
  publisher : String
  html : String
  pdf : Bool
deriving DecidableEq

/-- Milliseconds per day, the divisor behind the UTC calendar accessors. -/
def msPerDay : Int := 86400000

/-- Proleptic Gregorian civil date (year, month 1..12, day) from a count of days
since 1970-01-01, as specified for the ECMAScript `getUTC*` accessors. -/
def civilFromDays (z0 : Int) : Int × Int × Int :=
  let z := z0 + 719468
  let era := z / 146097
  let doe := z - era * 146097
  let yoe := (doe - doe / 1460 + doe / 36524 - doe / 146096) / 365
  let y := yoe + era * 400
  let doy := doe - (365 * yoe + yoe / 4 - yoe / 100)
  let mp := (5 * doy + 2) / 153
  let d := doy - (153 * mp + 2) / 5 + 1
  let m := if mp < 10 then mp + 3 else mp - 9
  (if m ≤ 2 then y + 1 else y, m, d)

/-- UTC year/month/day of an epoch-milliseconds timestamp. -/
def utcYMD (ms : Int) : Int × Int × Int := civilFromDays (ms / msPerDay)

/-- The month-name table of `apaDateString`. -/
def MONTH_NAMES : List String :=
  ["January", "February", "March", "April", "May", "June", "July", "August",
   "September", "October", "November", "December"]

/-- `apaDateString`: "`${getUTCFullYear()}, ${month} ${getUTCDate()}`". -/
def apaDateString (ms : Int) : String :=
  let ymd := utcYMD ms
  toString ymd.1 ++ ", " ++ MONTH_NAMES.getD (ymd.2.1 - 1).toNat "" ++ " " ++ toString ymd.2.2

/-- `parseDateYMD`: `new Date(iso)` through the engine parser, `none` for an
empty input or an invalid date. -/
def parseDateYMD (env : JsEnv) (iso : String) : Option Int :=
  if iso = "" then none else dateParseJs env iso

/-- The dash alternatives `[-|–]` of the `cleanTitle` regex. -/
def dashChar (c : Char) : Bool := c = '-' || c = '|' || c = '–'

/-- Does `\s*[-|–]\s*[^-|–]+$` match starting exactly here and run to the end? -/
def cleanMatchHere (cs : List Char) : Bool :=
  match cs.dropWhile jsIsWs with
  | c :: rest => dashChar c && !rest.isEmpty && rest.all (fun x => !dashChar x)
  | [] => false

/-- Remove the leftmost match of the trailing-suffix pattern (JS `replace` with
no global flag); the prefix before the match is kept. -/
def cleanDropFrom : List Char → List Char
  | [] => []
  | c :: rest => if cleanMatchHere (c :: rest) then [] else c :: cleanDropFrom rest

/-- `cleanTitle`: strip a trailing " - Site Name"-style suffix and trim. -/
def cleanTitle (t : String) : String := ⟨jsTrimL (cleanDropFrom t.data)⟩

/-- `w[0].toUpperCase() + "."` over a token (tokens are nonempty by construction). -/
def initialOf (w : List Char) : List Char :=
  match w with
  | [] => []
  | c :: _ => [c.toUpper, '.']

/-- `arr.join(sep)` over character-list tokens. -/
def joinSep (sep : String) : List (List Char) → String
  | [] => ""
  | [w] => ⟨w⟩
  | w :: ws => (⟨w⟩ : String) ++ sep ++ joinSep sep ws

/-- `n.split(",", 2)` (first two comma-separated fields; the second is `""`
when there is no comma, matching the `(rest || "")` use site). -/
def splitComma2 (cs : List Char) : List Char × List Char :=
  let before := cs.takeWhile (fun c => c ≠ ',')
  match cs.dropWhile (fun c => c ≠ ',') with
  | ',' :: r => (before, r.takeWhile (fun c => c ≠ ','))
  | _ => (before, [])

/-- `authorNameToAPA` from the source: "Surname, I. I." conversion. -/
def authorNameToAPA (name : String) : String :=
  if name = "" then "" else
  let n := jsTrimL name.data
  if n.isEmpty then "" else
  if n.contains ',' then
    let pr := splitComma2 n
    let last := jsTrimL pr.1
    let initials := joinSep " " ((splitWsTokens (jsTrimL pr.2)).map initialOf)
    (⟨last⟩ : String) ++ ", " ++ initials
  else
    match splitWsTokens n with
    | [] => ""
    | [p] => ⟨p⟩
    | parts =>
      let last := parts.getLastD []
      let initials := joinSep " " (parts.dropLast.map initialOf)
      (⟨last⟩ : String) ++ ", " ++ initials

/-- `formatAPA` from the source (the decision-tree file returns the bare string;
the threshold file wraps the same string in `{apa}`). -/
def formatAPA (env : JsEnv) (meta : PageMeta) : String :=
  let authorStr := authorNameToAPA meta.author
  let dateStr := match parseDateYMD env meta.published with
    | some ms => apaDateString ms
    | none => "n.d."
  let titleStr := cleanTitle (if meta.title = "" then "(No title)" else meta.title)
  let site := if meta.publisher = "" then hostOf env meta.url else meta.publisher
  if authorStr = "" then titleStr ++ ". (" ++ dateStr ++ "). " ++ site ++ ". " ++ meta.url
  else authorStr ++ " (" ++ dateStr ++ "). " ++ titleStr ++ ". " ++ site ++ ". " ++ meta.url

/-- The spec's concrete citation-formatting example input. -/
def apaExampleMeta : PageMeta :=
  { url := "https://example.org/r", title := "Report Title - Example Org",
    author := "Smith, John A.", published := "2023-05-10", modified := "",
    publisher := "Example Org", html := "", pdf := false }

/-- Accumulate a decimal digit run, `parseInt`'s base-10 evaluation. -/
def digitsVal : List Char → Nat → Nat
  | [], acc => acc
  | c :: cs, acc => digitsVal cs (acc * 10 + (c.toNat - '0'.toNat))

/-- JS `parseInt(s, 10)`: skip leading whitespace, read an optional sign and a
maximal decimal-digit run; `none` models `NaN` (no digits). -/
def jsParseInt (s : String) : Option Int :=
  let cs := s.data.dropWhile jsIsWs
  let sr : Int × List Char :=
    match cs with
    | '-' :: r => (-1, r)
    | '+' :: r => (1, r)
    | r => (1, r)
  let ds := sr.2.takeWhile jsIsDigit
  if ds.isEmpty then none else some (sr.1 * (digitsVal ds 0 : Int))

/-- `limit = Math.min(parseInt(max, 10) || 8, 12)` from both handlers
(`NaN` and `0` are falsy, so both fall back to the default 8). -/
def computeLimit (maxParam : String) : Int :=
  let n : Int :=
    match jsParseInt maxParam with
    | some v => if v = 0 then 8 else v
    | none => 8
  min n 12

/-- JS `Array.prototype.slice(0, e)`: a negative end index counts back from the
end of the array (clamped at 0); a nonnegative one truncates. -/
def jsSliceTo {α : Type} (l : List α) (e : Int) : List α :=
  if e < 0 then l.take (l.length - e.natAbs) else l.take e.toNat

/-- A criterion score record `{name, score, reasons}` as built by the
`s(name, score, reasons)` / `score(name, score, reasons)` helpers. -/
structure CriterionScore where
  name : String
  score : Int
  reasons : List String
deriving DecidableEq

/-- The shared `biased` condition of both Objectivity evaluators:
`/opinion|editorial|commentary/i.test(html) && !/methods|references|bibliography/i.test(html)`. -/
def objBiased (html : String) : Bool :=
  testAnyCI html ["opinion", "editorial", "commentary"] &&
    !testAnyCI html ["methods", "references", "bibliography"]

/-- The shared `major` condition of both Authority evaluators: institutional
suffix or any curated-tier match for the candidate's host. -/
def majorHost (h : String) : Bool :=
  govEduSuffix h || TIER1_CORE.any (entryMatch h) || TIER2_INDEXES.any (entryMatch h) ||
    TIER3_PUBLISHERS.any (entryMatch h)

namespace DT

/-! The decision-tree variant (the unnamed source file `src/unnamed/part_000`). -/

/-- `scoreAuthority(meta, url)`: 5 for institutional hosts, 3 for a named
author, else 1. -/
def scoreAuthority (env : JsEnv) (meta : PageMeta) (url : String) : CriterionScore :=
  let h := hostOf env url
  if majorHost h then ⟨"Authority", 5, ["Government/major org, index, or publisher"]⟩
  else if meta.author ≠ "" then ⟨"Authority", 3, ["Named author present"]⟩
  else ⟨"Authority", 1, ["Publisher/author unclear"]⟩

/-- `scoreAccuracy(meta)`: DOI/gov citation counting with a references-heading
fallback; the Accuracy kill gate reads this score. -/
def scoreAccuracy (meta : PageMeta) : CriterionScore :=
  let doi := doiCount meta.html
  let govEd := govEdCount meta.html
  let refsH := testAnyCI meta.html ["References", "Citations", "Bibliography"]
  if 3 ≤ doi + govEd then ⟨"Accuracy", 5, ["Multiple DOI/gov/edu/int citations"]⟩
  else if refsH || decide (1 ≤ doi + govEd) then
    ⟨"Accuracy", 3, ["Some citations/credible references"]⟩
  else ⟨"Accuracy", 1, ["Few/no credible citations"]⟩

/-- `scoreCurrency(meta, url)`: age thresholds at 18 and 60 months (the float
month arithmetic is modelled exactly over the millisecond difference), with the
undated gov/edu PDF concession. -/
def scoreCurrency (env : JsEnv) (meta : PageMeta) (url : String) : CriterionScore :=
  match dateParseJs env (if meta.modified = "" then meta.published else meta.modified) with
  | some t =>
    if env.now - t ≤ 18 * 2592000000 then ⟨"Currency", 5, ["Recently published/updated"]⟩
    else if env.now - t ≤ 60 * 2592000000 then ⟨"Currency", 3, ["Acceptably dated"]⟩
    else ⟨"Currency", 1, ["Likely outdated for fast-moving topics"]⟩
  | none =>
    if meta.pdf && govEduSuffix (hostOf env url) then
      ⟨"Currency", 3, ["Undated PDF on credible domain (allowed)"]⟩
    else ⟨"Currency", 1, ["No clear date found"]⟩

/-- `scoreObjectivity(meta)`: 2 for biased content, else 4; the Objectivity kill
gate reads this score. -/
def scoreObjectivity (meta : PageMeta) : CriterionScore :=
  if objBiased meta.html then
    ⟨"Objectivity", 2, ["Opinion/editorial without balancing methods/refs"]⟩
  else ⟨"Objectivity", 4, ["Neutral/balanced tone indicators"]⟩

/-- The `info` marker test of the decision-tree `scorePurpose`. -/
def purposeInfo (html : String) : Bool :=
  testAnyCI html ["research", "report", "method", "policy", "guideline", "dataset"] ||
    gapTestCI html "fact" "sheet" false || gapTestCI html "white" "paper" false

/-- The `ad` marker test of the decision-tree `scorePurpose`. -/
def purposeAd (html : String) : Bool :=
  testAnyCI html ["advert", "sponsored", "subscribe", "promotion", "shop"] ||
    gapTestCI html "buy" "now" true

/-- `scorePurpose(meta)`: 1 for promotional, 5 for educational/research, else 3. -/
def scorePurpose (meta : PageMeta) : CriterionScore :=
  if purposeAd meta.html then ⟨"Purpose", 1, ["Promotional/advertising signals"]⟩
  else if purposeInfo meta.html then ⟨"Purpose", 5, ["Educational/research/guideline indicators"]⟩
  else ⟨"Purpose", 3, ["General informational content"]⟩

/-- `scoreAudience(meta)`: 2 for marketing language, else 3 (a technical page is
annotated differently but scored the same). -/
def scoreAudience (meta : PageMeta) : CriterionScore :=
  let veryTech := testAnyCI meta.html ["complexity", "notation", "theorem", "proof", "asymptotic"]
    && testAnyCI meta.html ["references"]
  let marketing := testAnyCI meta.html
    ["buy", "pricing", "plans", "signup", "subscribe", "resources for customers"]
  if marketing then ⟨"Audience", 2, ["Marketing/customer-facing language"]⟩
  else if veryTech then ⟨"Audience", 3, ["Technical/academic audience"]⟩
  else ⟨"Audience", 3, ["General audience acceptable"]⟩

/-- The mutable `scores` object of `analyzeDecisionTree`, one entry per criterion. -/
structure SixScores where
  Authority : CriterionScore
  Accuracy : CriterionScore
  Currency : CriterionScore
  Objectivity : CriterionScore
  Purpose : CriterionScore
  Audience : CriterionScore
deriving DecidableEq

/-- `pdfAdjust(meta, url, scores)`: for a gov/edu/int-hosted PDF, floor
Authority at 5 and Accuracy at 3 (appending the explanatory reasons). -/
def pdfAdjust (env : JsEnv) (meta : PageMeta) (url : String) (s : SixScores) : SixScores :=
  if !meta.pdf then s
  else if govEduSuffix (hostOf env url) then
    { s with
      Authority :=
        if s.Authority.score < 5 then
          { s.Authority with
            score := 5
            reasons := s.Authority.reasons ++ ["Gov/edu PDF baseline"] }
        else s.Authority
      Accuracy :=
        if s.Accuracy.score < 3 then
          { s.Accuracy with
            score := 3
            reasons := s.Accuracy.reasons ++ ["Gov/edu PDF—assume embedded references"] }
        else s.Accuracy }
  else s

/-- The six post-adjustment criterion scores of a candidate: raw scoring in the
source's stage order followed by `pdfAdjust`. -/
def adjScores (env : JsEnv) (c : Candidate) (meta : PageMeta) : SixScores :=
  pdfAdjust env meta c.url
    { Authority := scoreAuthority env meta c.url
      Accuracy := scoreAccuracy meta
      Currency := scoreCurrency env meta c.url
      Objectivity := scoreObjectivity meta
      Purpose := scorePurpose meta
      Audience := scoreAudience meta }

/-- A `stage_notes` entry (`reason`/`purpose` detail fields merged into one). -/
structure StageNote where
  stage : String
  status : String
  detail : String
deriving DecidableEq

/-- The result object assembled by `finalize`. -/
structure ScoredResult where
  title : String
  url : String
  publisher : String
  published : Option String
  scores : List (String × Int)
  score_total : Int
  verdict : String
  stage_notes : List StageNote
  failed_stage : Option String
  stage_reason : Option String
  why : List String
  apa : String
deriving DecidableEq

/-- `finalize(meta, c, scoresObj, whyArr, notes, verdict, failedStage, failMsg)`. -/
def finalize (env : JsEnv) (meta : PageMeta) (c : Candidate) (so : SixScores)
    (whyArr : List String) (notes : List StageNote) (verdict : String)
    (failedStage : Option String) (failMsg : Option String) : ScoredResult :=
  let parts := [so.Authority, so.Accuracy, so.Currency, so.Objectivity, so.Purpose, so.Audience]
  { title := if meta.title ≠ "" then meta.title else if c.title ≠ "" then c.title else c.url
    url := c.url
    publisher := if meta.publisher ≠ "" then meta.publisher else hostOf env c.url
    published := if meta.published = "" then none else some meta.published
    scores := parts.map (fun p => (p.name, p.score))
    score_total := (parts.map (fun p => p.score)).sum
    verdict := verdict
    stage_notes := notes
    failed_stage := failedStage
    stage_reason := failMsg
    why := (eraseDupsFirst whyArr).take 12
    apa := formatAPA env meta }

/-- `analyzeDecisionTree(c)` with the page fetch abstracted into `meta`:
Authority and Currency are soft gates, Accuracy and Objectivity are kill gates,
Purpose and Audience only explain. -/
def analyzeDecisionTree (env : JsEnv) (c : Candidate) (meta : PageMeta) : ScoredResult :=
  let s := adjScores env c meta
  let notes1 : List StageNote :=
    if s.Authority.score < 3 then
      [⟨"Authority", "failed-soft", headOr s.Authority.reasons "Low authority"⟩]
    else []
  let why1 := s.Authority.reasons
  if s.Accuracy.score < 3 then
    finalize env meta c s (why1 ++ s.Accuracy.reasons) notes1 "NOT_CREDIBLE"
      (some "Accuracy") (some "Insufficient evidence/citations")
  else
    let why2 := why1 ++ s.Accuracy.reasons
    let notes2 := notes1 ++
      (if s.Currency.score < 3 then
        [⟨"Currency", "failed-soft", headOr s.Currency.reasons "Outdated/undated"⟩]
      else [])
    let why3 := why2 ++ s.Currency.reasons
    if s.Objectivity.score < 3 then
      finalize env meta c s (why3 ++ s.Objectivity.reasons) notes2 "NOT_CREDIBLE"
        (some "Objectivity") (some "Biased/opinion without balancing evidence")
    else
      let why4 := why3 ++ s.Objectivity.reasons
      let notes3 := notes2 ++
        (if s.Purpose.score < 3 then
          [⟨"Purpose", "explain", "Promotional/advertising or non-educational"⟩]
        else [])
      let why5 := why4 ++ s.Purpose.reasons
      let notes4 := notes3 ++
        (if s.Audience.score < 3 then
          [⟨"Audience", "explain", headOr s.Audience.reasons "Not suitable for general readers"⟩]
        else [])
      finalize env meta c s (why5 ++ s.Audience.reasons) notes4 "CREDIBLE" none none

/-- The decision-tree handler's result assembly:
`analyzed.filter(x => x.verdict === "CREDIBLE").slice(0, limit)` — no sort. -/
def assembleResults (analyzed : List ScoredResult) (limit : Int) : List ScoredResult :=
  jsSliceTo (analyzed.filter (fun x => x.verdict == "CREDIBLE")) limit

end DT

namespace SJ

/-! The threshold variant (`src/api/search.js`). -/

/-- `scorePurpose(meta)`: informational content scores 5 capped to 3 by
advertising signals; reasons mirror the source's push order. -/
def scorePurpose (meta : PageMeta) : CriterionScore :=
  let info := testAnyCI meta.html
      ["research", "report", "method", "policy", "about", "dataset", "guideline"] ||
    gapTestCI meta.html "fact" "sheet" false
  let ads := testAnyCI meta.html ["advert", "sponsored", "subscribe"] ||
    gapTestCI meta.html "buy" "now" true
  let sc : Int := if info then 5 else 3
  let sc := if ads then min sc 3 else sc
  ⟨"Purpose", sc,
    (if ads then ["Advertising/sales signals present"] else []) ++
      [if info then "Informational/educational indicators found"
       else "General content (not clearly research/policy)"]⟩

/-- `scoreAuthority(meta, url)` from the threshold file (same gates as the
decision-tree file, different reason strings). -/
def scoreAuthority (env : JsEnv) (meta : PageMeta) (url : String) : CriterionScore :=
  if majorHost (hostOf env url) then
    ⟨"Authority", 5, ["Government/major org, index, or publisher domain"]⟩
  else if meta.author ≠ "" then ⟨"Authority", 3, ["Named author present"]⟩
  else ⟨"Authority", 1, ["Publisher/author unclear"]⟩

/-- `scoreAudience()`: constant 3, the function ignores its arguments. -/
def scoreAudience : CriterionScore :=
  ⟨"Audience", 3, ["General audience language acceptable"]⟩

/-- `scoreObjectivity(meta)` from the threshold file: 3 for biased content
(not 2 as in the decision-tree file), else 4. -/
def scoreObjectivity (meta : PageMeta) : CriterionScore :=
  if objBiased meta.html then
    ⟨"Objectivity", 3, ["Opinion/editorial signals without balancing methods/references"]⟩
  else ⟨"Objectivity", 4, ["Neutral/balanced tone indicators"]⟩

/-- `scoreAccuracy(meta)` from the threshold file. -/
def scoreAccuracy (meta : PageMeta) : CriterionScore :=
  let doi := doiCount meta.html
  let govEd := govEdCount meta.html
  let refsH := testAnyCI meta.html ["References", "Citations", "Bibliography"]
  if 3 ≤ doi + govEd then ⟨"Accuracy", 5, ["Multiple DOI/gov/edu/int citations found"]⟩
  else if refsH || decide (1 ≤ doi + govEd) then
    ⟨"Accuracy", 3, ["Some citations or credible references present"]⟩
  else ⟨"Accuracy", 1, ["Few or no credible citations found"]⟩

/-- `scoreCurrency(meta)` from the threshold file (no PDF concession). -/
def scoreCurrency (env : JsEnv) (meta : PageMeta) : CriterionScore :=
  match dateParseJs env (if meta.modified = "" then meta.published else meta.modified) with
  | some t =>
    if env.now - t ≤ 18 * 2592000000 then ⟨"Currency", 5, ["Recently published/updated"]⟩
    else if env.now - t ≤ 60 * 2592000000 then ⟨"Currency", 3, ["Acceptably dated"]⟩
    else ⟨"Currency", 1, ["Likely outdated for fast-moving topics"]⟩
  | none => ⟨"Currency", 1, ["No clear date found"]⟩

/-- The `parts` array of `analyzeOne`, in the source's construction order. -/
def partsOf (env : JsEnv) (c : Candidate) (meta : PageMeta) : List CriterionScore :=
  [scorePurpose meta, scoreAuthority env meta c.url, scoreAudience,
   scoreObjectivity meta, scoreAccuracy meta, scoreCurrency env meta]

/-- The unweighted six-score total of `analyzeOne`. -/
def totalOf (env : JsEnv) (c : Candidate) (meta : PageMeta) : Int :=
  ((partsOf env c meta).map (fun p => p.score)).sum

/-- The result object of the threshold analyzer. -/
structure Result where
  title : String
  url : String
  publisher : String
  published : Option String
  score_total : Int
  verdict : String
  scores : List (String × Int)
  why : List String
  apa : String
deriving DecidableEq

/-- `analyzeOne(c)` with the page fetch abstracted into `meta`: verdict from
the total alone (`≥25` credible, `≥20` limited, else not credible); non-credible
candidates return `null` and therefore never surface a result object. -/
def analyzeOne (env : JsEnv) (c : Candidate) (meta : PageMeta) : Option Result :=
  let parts := partsOf env c meta
  let total : Int := totalOf env c meta
  let verdict : String := if 25 ≤ total then "CREDIBLE" else if 20 ≤ total then "LIMITED"
    else "NOT_CREDIBLE"
  if verdict ≠ "CREDIBLE" then none
  else some
    { title := if meta.title ≠ "" then meta.title else if c.title ≠ "" then c.title else c.url
      url := c.url
      publisher := if meta.publisher ≠ "" then meta.publisher else hostOf env c.url
      published := if meta.published = "" then none else some meta.published
      score_total := total
      verdict := verdict
      scores := parts.map (fun p => (p.name, p.score))
      why := parts.flatMap (fun p => p.reasons)
      apa := formatAPA env meta }

/-- The threshold handler's result assembly:
`analyzed.filter(CREDIBLE).sort((a,b) => b.score_total - a.score_total).slice(0, limit)`
(a stable descending sort). -/
def assembleResults (analyzed : List Result) (limit : Int) : List Result :=
  jsSliceTo
    ((analyzed.filter (fun x => x.verdict == "CREDIBLE")).mergeSort
      (fun a b => decide (b.score_total ≤ a.score_total)))
    limit

end SJ

/-- Concrete platform environment for witnesses: clock at the epoch, every date
parse and URL parse fails. -/
def cexEnv : JsEnv := ⟨0, fun _ => none, fun _ => none⟩

/-- Concrete candidate for witnesses. -/
def cexCand : Candidate := ⟨"t", "u"⟩

/-- Metadata whose content is exactly a references heading. -/
def metaRefs : PageMeta := ⟨"u", "", "", "", "", "", "references", false⟩

/-- Metadata with empty content. -/
def metaEmpty : PageMeta := ⟨"u", "", "", "", "", "", "", false⟩

/-- Metadata whose content is exactly an opinion marker. -/
def metaOpinion : PageMeta := ⟨"u", "", "", "", "", "", "opinion", false⟩

/-- Environment where the strong candidate's URL and date resolve. -/
def strongEnv : JsEnv :=
  ⟨1683676800000,
   fun s => if s = "2023-05-10" then some 1683676800000 else none,
   fun u => if u = "https://nih.gov/r" then some "nih.gov" else none⟩

/-- A candidate on a Tier-1 host. -/
def strongCand : Candidate := ⟨"t", "https://nih.gov/r"⟩

/-- Rich metadata: research marker, three DOI citations, fresh ISO date. -/
def metaStrong : PageMeta :=
  ⟨"https://nih.gov/r", "", "", "2023-05-10", "", "",
   "research doi.org/10.1/a doi.org/10.1/b doi.org/10.1/c", false⟩

/-- A minimal credible decision-tree result with total 26. -/
def cexLow : DT.ScoredResult :=
  ⟨"l", "u1", "p", none, [], 26, "CREDIBLE", [], none, none, [], ""⟩

/-- A minimal credible decision-tree result with total 27. -/
def cexHigh : DT.ScoredResult :=
  ⟨"h", "u2", "p", none, [], 27, "CREDIBLE", [], none, none, [], ""⟩

/-- C6: matching a host against a curated entry succeeds exactly for equality or a
`"." ++ entry` suffix at a label boundary, and the three concrete spec examples
evaluate as stated: `notgov.org` is not trusted under `strict`, `sub.who.int` is
trusted under `wide`, and `who.int.attacker.com` is not trusted under `strict`. -/
theorem entryMatch_iff_eq_or_dot_suffix :
    (∀ host t : String, entryMatch host t = true ↔
      (host = t ∨ ∃ p : String, host = p ++ "." ++ t)) ∧
    isTrustedHost "notgov.org" "strict" = false ∧
    isTrustedHost "sub.who.int" "wide" = true ∧
    isTrustedHost "who.int.attacker.com" "strict" = false := by
  refine ⟨?_, by decide, by decide, by decide⟩
  intro host t
  unfold entryMatch endsWithJs
  rw [Bool.or_eq_true, beq_iff_eq, List.isSuffixOf_iff_suffix]
  constructor
  · rintro (h | ⟨pre, hpre⟩)
    · exact Or.inl h
    · refine Or.inr ⟨⟨pre⟩, ?_⟩
      apply String.ext
      rw [String.data_append, String.data_append]
      simpa [List.append_assoc] using hpre.symm
  · rintro (h | ⟨p, hp⟩)
    · exact Or.inl h
    · refine Or.inr ⟨p.data, ?_⟩
      subst hp
      rw [String.data_append, String.data_append, String.data_append]
      simp

/-- C7 (amended): under the `web` scope every nonempty host is trusted; the
empty host produced from a malformed URL is rejected by the leading
`if (!host) return false` guard. -/
theorem webScope_trusts_every_nonempty_host (h : String) (hne : h ≠ "") :
    isTrustedHost h "web" = true ∧ isTrustedHost "" "web" = false := by
  refine ⟨?_, by decide⟩
  unfold isTrustedHost
  rw [if_neg (by simpa using hne)]
  rfl

theorem webScope_trusts_every_nonempty_host_witness :
    isTrustedHost "example-blog.com" "web" = true ∧ isTrustedHost "" "web" = false :=
  webScope_trusts_every_nonempty_host "example-blog.com" (by decide)

/-- C7 counterexample: the claim that `isTrusted(host, "web")` is true for every
host, including the empty host from a malformed URL, fails at the empty host. -/
theorem webScope_empty_host_not_trusted : isTrustedHost "" "web" = false := by decide

/-- C8: the classification functions are total: when URL parsing throws inside
`hostOf`, the exception is caught and the host degrades to `""`, and
`isTrustedHost` then yields `false` for every scope instead of propagating the
parse failure. -/
theorem hostOf_malformed_url_safe (env : JsEnv) (u scope : String)
    (h : env.urlHostname u = none) :
    hostOf env u = "" ∧ isTrustedHost (hostOf env u) scope = false := by
  have hh : hostOf env u = "" := by unfold hostOf; rw [h]
  exact ⟨hh, by rw [hh]; rfl⟩

theorem hostOf_malformed_url_safe_witness :
    hostOf ⟨0, fun _ => none, fun _ => none⟩ "not a url" = "" ∧
    isTrustedHost (hostOf ⟨0, fun _ => none, fun _ => none⟩ "not a url") "strict" = false :=
  hostOf_malformed_url_safe ⟨0, fun _ => none, fun _ => none⟩ "not a url" "strict" rfl

/-- C9: the citation formatter on the spec's concrete example, assuming only the
ECMA-specified parse of the ISO date `2023-05-10` (UTC midnight, epoch
milliseconds 1683676800000). -/
theorem formatAPA_concrete_example (env : JsEnv)
    (hd : env.dateParse "2023-05-10" = some 1683676800000) :
    formatAPA env apaExampleMeta
      = "Smith, J. A. (2023, May 10). Report Title. Example Org. https://example.org/r" := by
  simp only [formatAPA]
  rw [show parseDateYMD env apaExampleMeta.published = some 1683676800000 by
        simp only [parseDateYMD, dateParseJs]
        rw [if_neg (by decide), if_neg (by decide)]
        exact hd,
      if_neg (show ¬ (apaExampleMeta.publisher = "") by decide),
      if_neg (show ¬ (authorNameToAPA apaExampleMeta.author = "") by decide)]
  decide

theorem formatAPA_concrete_example_witness :
    formatAPA ⟨0, fun s => if s = "2023-05-10" then some 1683676800000 else none, fun _ => none⟩
      apaExampleMeta
      = "Smith, J. A. (2023, May 10). Report Title. Example Org. https://example.org/r" :=
  formatAPA_concrete_example _ (by decide)

/-- C10: the `max` parameter is only clamped from above: a negative parsed value
becomes the limit unchanged and acts as a negative slice bound that removes the
last `k` credible results (possibly emptying the response), while a parsed `0`
or an unparsable value falls back to the default limit 8. -/
theorem max_param_negative_slice {α : Type} (maxParam : String) (n : Int) (l : List α) :
    (jsParseInt maxParam = some n → n < 0 →
      computeLimit maxParam = n ∧
      jsSliceTo l n = l.take (l.length - n.natAbs) ∧
      (n ≤ -(l.length : Int) → jsSliceTo l n = [])) ∧
    (jsParseInt maxParam = some 0 → computeLimit maxParam = 8) ∧
    (jsParseInt maxParam = none → computeLimit maxParam = 8) := by
  refine ⟨fun hp hn => ⟨?_, ?_, fun hk => ?_⟩, fun hp => ?_, fun hp => ?_⟩
  · simp only [computeLimit, hp]
    rw [if_neg (by omega)]
    omega
  · simp only [jsSliceTo]
    rw [if_pos hn]
  · simp only [jsSliceTo]
    rw [if_pos hn]
    have : l.length - n.natAbs = 0 := by omega
    rw [this, List.take_zero]
  · simp only [computeLimit, hp, if_true]
    omega
  · simp only [computeLimit, hp]
    omega

theorem max_param_negative_slice_witness :
    (computeLimit "-2" = -2 ∧
      jsSliceTo ["a", "b", "c"] (-2) = ["a", "b", "c"].take (["a", "b", "c"].length - 2) ∧
      jsSliceTo (["a"] : List String) (-2) = []) ∧
    computeLimit "0" = 8 ∧ computeLimit "oops" = 8 := by
  have h1 := (max_param_negative_slice "-2" (-2) ["a", "b", "c"]).1 (by decide) (by decide)
  have h2 := (max_param_negative_slice "-2" (-2) (["a"] : List String)).1 (by decide) (by decide)
  exact ⟨⟨h1.1, h1.2.1, h2.2.2 (by decide)⟩,
    (max_param_negative_slice "0" 0 ([] : List String)).2.1 (by decide),
    (max_param_negative_slice "oops" 0 ([] : List String)).2.2 (by decide)⟩

theorem dt_scoreAuthority_bounds (env : JsEnv) (meta : PageMeta) (url : String) :
    1 ≤ (DT.scoreAuthority env meta url).score ∧ (DT.scoreAuthority env meta url).score ≤ 5 := by
  simp only [DT.scoreAuthority]
  split
  · exact ⟨by norm_num, by norm_num⟩
  · split
    · exact ⟨by norm_num, by norm_num⟩
    · exact ⟨by norm_num, by norm_num⟩

theorem dt_scoreAccuracy_bounds (meta : PageMeta) :
    1 ≤ (DT.scoreAccuracy meta).score ∧ (DT.scoreAccuracy meta).score ≤ 5 := by
  simp only [DT.scoreAccuracy]
  split
  · exact ⟨by norm_num, by norm_num⟩
  · split
    · exact ⟨by norm_num, by norm_num⟩
    · exact ⟨by norm_num, by norm_num⟩

theorem dt_scoreCurrency_bounds (env : JsEnv) (meta : PageMeta) (url : String) :
    1 ≤ (DT.scoreCurrency env meta url).score ∧ (DT.scoreCurrency env meta url).score ≤ 5 := by
  simp only [DT.scoreCurrency]
  split
  · split
    · exact ⟨by norm_num, by norm_num⟩
    · split
      · exact ⟨by norm_num, by norm_num⟩
      · exact ⟨by norm_num, by norm_num⟩
  · split
    · exact ⟨by norm_num, by norm_num⟩
    · exact ⟨by norm_num, by norm_num⟩

theorem dt_scoreObjectivity_bounds (meta : PageMeta) :
    1 ≤ (DT.scoreObjectivity meta).score ∧ (DT.scoreObjectivity meta).score ≤ 5 := by
  simp only [DT.scoreObjectivity]
  split
  · exact ⟨by norm_num, by norm_num⟩
  · exact ⟨by norm_num, by norm_num⟩

theorem dt_scorePurpose_bounds (meta : PageMeta) :
    1 ≤ (DT.scorePurpose meta).score ∧ (DT.scorePurpose meta).score ≤ 5 := by
  simp only [DT.scorePurpose]
  split
  · exact ⟨by norm_num, by norm_num⟩
  · split
    · exact ⟨by norm_num, by norm_num⟩
    · exact ⟨by norm_num, by norm_num⟩

theorem dt_scoreAudience_bounds (meta : PageMeta) :
    1 ≤ (DT.scoreAudience meta).score ∧ (DT.scoreAudience meta).score ≤ 5 := by
  simp only [DT.scoreAudience]
  split
  · exact ⟨by norm_num, by norm_num⟩
  · split
    · exact ⟨by norm_num, by norm_num⟩
    · exact ⟨by norm_num, by norm_num⟩

theorem dt_adjScores_bounds (env : JsEnv) (c : Candidate) (meta : PageMeta) :
    (1 ≤ (DT.adjScores env c meta).Authority.score ∧ (DT.adjScores env c meta).Authority.score ≤ 5) ∧
    (1 ≤ (DT.adjScores env c meta).Accuracy.score ∧ (DT.adjScores env c meta).Accuracy.score ≤ 5) ∧
    (1 ≤ (DT.adjScores env c meta).Currency.score ∧ (DT.adjScores env c meta).Currency.score ≤ 5) ∧
    (1 ≤ (DT.adjScores env c meta).Objectivity.score ∧ (DT.adjScores env c meta).Objectivity.score ≤ 5) ∧
    (1 ≤ (DT.adjScores env c meta).Purpose.score ∧ (DT.adjScores env c meta).Purpose.score ≤ 5) ∧
    (1 ≤ (DT.adjScores env c meta).Audience.score ∧ (DT.adjScores env c meta).Audience.score ≤ 5) := by
  have hA := dt_scoreAuthority_bounds env meta c.url
  have hAC := dt_scoreAccuracy_bounds meta
  have hC := dt_scoreCurrency_bounds env meta c.url
  have hO := dt_scoreObjectivity_bounds meta
  have hP := dt_scorePurpose_bounds meta
  have hAU := dt_scoreAudience_bounds meta
  simp only [DT.adjScores, DT.pdfAdjust]
  split
  · exact ⟨hA, hAC, hC, hO, hP, hAU⟩
  · split
    · refine ⟨?_, ?_, hC, hO, hP, hAU⟩
      · split
        · exact ⟨show (1 : Int) ≤ 5 by norm_num, show (5 : Int) ≤ 5 by norm_num⟩
        · exact hA
      · split <;> split
        · exact ⟨show (1 : Int) ≤ 3 by norm_num, show (3 : Int) ≤ 5 by norm_num⟩
        · exact hAC
        · exact ⟨show (1 : Int) ≤ 3 by norm_num, show (3 : Int) ≤ 5 by norm_num⟩
        · exact hAC
    · exact ⟨hA, hAC, hC, hO, hP, hAU⟩

theorem dt_score_total_eq (env : JsEnv) (c : Candidate) (meta : PageMeta) :
    (DT.analyzeDecisionTree env c meta).score_total =
      (DT.adjScores env c meta).Authority.score + (DT.adjScores env c meta).Accuracy.score +
      (DT.adjScores env c meta).Currency.score + (DT.adjScores env c meta).Objectivity.score +
      (DT.adjScores env c meta).Purpose.score + (DT.adjScores env c meta).Audience.score := by
  simp only [DT.analyzeDecisionTree]
  split
  · simp only [DT.finalize, List.map_cons, List.map_nil, List.sum_cons, List.sum_nil]
    ring
  · split
    · simp only [DT.finalize, List.map_cons, List.map_nil, List.sum_cons, List.sum_nil]
      ring
    · simp only [DT.finalize, List.map_cons, List.map_nil, List.sum_cons, List.sum_nil]
      ring

theorem sj_scorePurpose_bounds (meta : PageMeta) :
    1 ≤ (SJ.scorePurpose meta).score ∧ (SJ.scorePurpose meta).score ≤ 5 := by
  simp only [SJ.scorePurpose]
  split
  · split
    · exact ⟨by norm_num, by norm_num⟩
    · exact ⟨by norm_num, by norm_num⟩
  · split
    · exact ⟨by norm_num, by norm_num⟩
    · exact ⟨by norm_num, by norm_num⟩

theorem sj_scoreAuthority_bounds (env : JsEnv) (meta : PageMeta) (url : String) :
    1 ≤ (SJ.scoreAuthority env meta url).score ∧ (SJ.scoreAuthority env meta url).score ≤ 5 := by
  simp only [SJ.scoreAuthority]
  split
  · exact ⟨by norm_num, by norm_num⟩
  · split
    · exact ⟨by norm_num, by norm_num⟩
    · exact ⟨by norm_num, by norm_num⟩

theorem sj_scoreObjectivity_bounds (meta : PageMeta) :
    1 ≤ (SJ.scoreObjectivity meta).score ∧ (SJ.scoreObjectivity meta).score ≤ 5 := by
  simp only [SJ.scoreObjectivity]
  split
  · exact ⟨by norm_num, by norm_num⟩
  · exact ⟨by norm_num, by norm_num⟩

theorem sj_scoreAccuracy_bounds (meta : PageMeta) :
    1 ≤ (SJ.scoreAccuracy meta).score ∧ (SJ.scoreAccuracy meta).score ≤ 5 := by
  simp only [SJ.scoreAccuracy]
  split
  · exact ⟨by norm_num, by norm_num⟩
  · split
    · exact ⟨by norm_num, by norm_num⟩
    · exact ⟨by norm_num, by norm_num⟩

theorem sj_scoreCurrency_bounds (env : JsEnv) (meta : PageMeta) :
    1 ≤ (SJ.scoreCurrency env meta).score ∧ (SJ.scoreCurrency env meta).score ≤ 5 := by
  simp only [SJ.scoreCurrency]
  split
  · split
    · exact ⟨by norm_num, by norm_num⟩
    · split
      · exact ⟨by norm_num, by norm_num⟩
      · exact ⟨by norm_num, by norm_num⟩
  · exact ⟨by norm_num, by norm_num⟩

theorem sj_totalOf_bounds (env : JsEnv) (c : Candidate) (meta : PageMeta) :
    6 ≤ SJ.totalOf env c meta ∧ SJ.totalOf env c meta ≤ 30 := by
  have hP := sj_scorePurpose_bounds meta
  have hA := sj_scoreAuthority_bounds env meta c.url
  have hO := sj_scoreObjectivity_bounds meta
  have hAC := sj_scoreAccuracy_bounds meta
  have hC := sj_scoreCurrency_bounds env meta
  have hAU : (1 : Int) ≤ SJ.scoreAudience.score ∧ SJ.scoreAudience.score ≤ 5 := by
    exact ⟨by decide, by decide⟩
  simp only [SJ.totalOf, SJ.partsOf, List.map_cons, List.map_nil, List.sum_cons, List.sum_nil]
  omega

theorem sj_analyzeOne_isSome_iff (env : JsEnv) (c : Candidate) (meta : PageMeta) :
    (SJ.analyzeOne env c meta).isSome = true ↔ 25 ≤ SJ.totalOf env c meta := by
  simp only [SJ.analyzeOne]
  by_cases h : 25 ≤ SJ.totalOf env c meta
  · simp [h]
  · by_cases h2 : 20 ≤ SJ.totalOf env c meta <;> simp [h, h2]

/-- C1 (amended): in the decision-tree analyzer, a candidate whose
post-adjustment Accuracy and Objectivity scores are both at least 3 always gets
verdict CREDIBLE, regardless of the Authority, Currency, Purpose and Audience
scores; the threshold analyzer (`src/api/search.js`) instead surfaces a result
exactly when the unweighted six-score total reaches 25. -/
theorem credible_when_kill_gates_pass (env : JsEnv) (c : Candidate) (meta : PageMeta)
    (hac : 3 ≤ (DT.adjScores env c meta).Accuracy.score)
    (hob : 3 ≤ (DT.adjScores env c meta).Objectivity.score) :
    (DT.analyzeDecisionTree env c meta).verdict = "CREDIBLE" ∧
    ((SJ.analyzeOne env c meta).isSome = true ↔ 25 ≤ SJ.totalOf env c meta) := by
  refine ⟨?_, sj_analyzeOne_isSome_iff env c meta⟩
  simp only [DT.analyzeDecisionTree]
  rw [if_neg (by omega), if_neg (by omega)]
  rfl

theorem credible_when_kill_gates_pass_witness :
    (DT.analyzeDecisionTree cexEnv cexCand metaRefs).verdict = "CREDIBLE" ∧
    ((SJ.analyzeOne cexEnv cexCand metaRefs).isSome = true ↔
      25 ≤ SJ.totalOf cexEnv cexCand metaRefs) :=
  credible_when_kill_gates_pass cexEnv cexCand metaRefs (by decide) (by decide)

/-- C1 counterexample: in the threshold analyzer (`src/api/search.js`,
`analyzeOne`) a candidate whose Accuracy (3) and Objectivity (4) scores both
pass yields no credible result at all — the six-score total 15 falls below the
25 threshold, so `analyzeOne` returns null rather than a Credible verdict. -/
theorem threshold_drops_candidate_passing_kill_criteria :
    3 ≤ (SJ.scoreAccuracy metaRefs).score ∧
    3 ≤ (SJ.scoreObjectivity metaRefs).score ∧
    SJ.totalOf cexEnv cexCand metaRefs = 15 ∧
    SJ.analyzeOne cexEnv cexCand metaRefs = none := by decide

/-- C2 (amended): a post-adjustment Accuracy score below 3 forces an immediate
NOT_CREDIBLE finalization with failedStage "Accuracy": no stage notes or
explanations beyond the Authority and Accuracy stages are recorded; the
remaining criteria (Currency, Objectivity, Purpose, Audience) are nonetheless
still scored, and their values are included in `scores` and in `score_total`. -/
theorem accuracy_kill_finalizes_immediately (env : JsEnv) (c : Candidate) (meta : PageMeta)
    (h : (DT.adjScores env c meta).Accuracy.score < 3) :
    (DT.analyzeDecisionTree env c meta).verdict = "NOT_CREDIBLE" ∧
    (DT.analyzeDecisionTree env c meta).failed_stage = some "Accuracy" ∧
    (DT.analyzeDecisionTree env c meta).stage_reason = some "Insufficient evidence/citations" ∧
    (∀ n ∈ (DT.analyzeDecisionTree env c meta).stage_notes, n.stage = "Authority") ∧
    (DT.analyzeDecisionTree env c meta).scores =
      [((DT.adjScores env c meta).Authority.name, (DT.adjScores env c meta).Authority.score),
       ((DT.adjScores env c meta).Accuracy.name, (DT.adjScores env c meta).Accuracy.score),
       ((DT.adjScores env c meta).Currency.name, (DT.adjScores env c meta).Currency.score),
       ((DT.adjScores env c meta).Objectivity.name, (DT.adjScores env c meta).Objectivity.score),
       ((DT.adjScores env c meta).Purpose.name, (DT.adjScores env c meta).Purpose.score),
       ((DT.adjScores env c meta).Audience.name, (DT.adjScores env c meta).Audience.score)] ∧
    (DT.analyzeDecisionTree env c meta).why =
      (eraseDupsFirst ((DT.adjScores env c meta).Authority.reasons ++
        (DT.adjScores env c meta).Accuracy.reasons)).take 12 := by
  simp only [DT.analyzeDecisionTree]
  rw [if_pos h]
  refine ⟨rfl, rfl, rfl, ?_, rfl, rfl⟩
  intro n hn
  simp only [DT.finalize] at hn
  split at hn
  · simp only [List.mem_singleton] at hn
    subst hn
    rfl
  · simp at hn

theorem accuracy_kill_finalizes_immediately_witness :
    (DT.analyzeDecisionTree cexEnv cexCand metaEmpty).verdict = "NOT_CREDIBLE" ∧
    (DT.analyzeDecisionTree cexEnv cexCand metaEmpty).failed_stage = some "Accuracy" :=
  ⟨(accuracy_kill_finalizes_immediately cexEnv cexCand metaEmpty (by decide)).1,
   (accuracy_kill_finalizes_immediately cexEnv cexCand metaEmpty (by decide)).2.1⟩

/-- C2 counterexample: evaluation of the remaining criteria is not skipped when
Accuracy fails — two candidates that both fail Accuracy but differ only in
Objectivity-relevant content finalize with different scoreTotals (13 vs 11), and
the killed result still records the evaluated Objectivity score. -/
theorem accuracy_kill_still_scores_later_stages :
    (DT.adjScores cexEnv cexCand metaEmpty).Accuracy.score < 3 ∧
    (DT.adjScores cexEnv cexCand metaOpinion).Accuracy.score < 3 ∧
    (DT.analyzeDecisionTree cexEnv cexCand metaEmpty).score_total = 13 ∧
    (DT.analyzeDecisionTree cexEnv cexCand metaOpinion).score_total = 11 ∧
    ("Objectivity", 2) ∈ (DT.analyzeDecisionTree cexEnv cexCand metaOpinion).scores := by decide

/-- C3: every result's scoreTotal is the unweighted sum of exactly six criterion
scores, each an integer in [1,5], so scoreTotal lies in [6,30] — for the
decision-tree analyzer unconditionally, and for the threshold analyzer's
emitted results via the same six-score total. -/
theorem score_total_six_bounded_sum :
    (∀ (env : JsEnv) (c : Candidate) (meta : PageMeta),
      (DT.analyzeDecisionTree env c meta).score_total =
        (DT.adjScores env c meta).Authority.score + (DT.adjScores env c meta).Accuracy.score +
        (DT.adjScores env c meta).Currency.score + (DT.adjScores env c meta).Objectivity.score +
        (DT.adjScores env c meta).Purpose.score + (DT.adjScores env c meta).Audience.score ∧
      (1 ≤ (DT.adjScores env c meta).Authority.score ∧ (DT.adjScores env c meta).Authority.score ≤ 5) ∧
      (1 ≤ (DT.adjScores env c meta).Accuracy.score ∧ (DT.adjScores env c meta).Accuracy.score ≤ 5) ∧
      (1 ≤ (DT.adjScores env c meta).Currency.score ∧ (DT.adjScores env c meta).Currency.score ≤ 5) ∧
      (1 ≤ (DT.adjScores env c meta).Objectivity.score ∧ (DT.adjScores env c meta).Objectivity.score ≤ 5) ∧
      (1 ≤ (DT.adjScores env c meta).Purpose.score ∧ (DT.adjScores env c meta).Purpose.score ≤ 5) ∧
      (1 ≤ (DT.adjScores env c meta).Audience.score ∧ (DT.adjScores env c meta).Audience.score ≤ 5) ∧
      6 ≤ (DT.analyzeDecisionTree env c meta).score_total ∧
      (DT.analyzeDecisionTree env c meta).score_total ≤ 30) ∧
    (∀ (env : JsEnv) (c : Candidate) (meta : PageMeta),
      6 ≤ SJ.totalOf env c meta ∧ SJ.totalOf env c meta ≤ 30 ∧
      (SJ.analyzeOne env c meta).map SJ.Result.score_total =
        (SJ.analyzeOne env c meta).map (fun _ => SJ.totalOf env c meta)) := by
  constructor
  · intro env c meta
    have ht := dt_score_total_eq env c meta
    have hb := dt_adjScores_bounds env c meta
    obtain ⟨h1, h2, h3, h4, h5, h6⟩ := hb
    exact ⟨ht, h1, h2, h3, h4, h5, h6, by omega, by omega⟩
  · intro env c meta
    refine ⟨(sj_totalOf_bounds env c meta).1, (sj_totalOf_bounds env c meta).2, ?_⟩
    simp only [SJ.analyzeOne]
    split
    · rfl
    · split <;> rfl

/-- C5 (amended): both Objectivity evaluators are two-valued over the shared
biased-content condition, but they disagree on the biased value: the
decision-tree file scores biased content 2 while `src/api/search.js` scores it
3; unbiased content scores 4 in both. -/
theorem objectivity_two_valued (meta : PageMeta) :
    (DT.scoreObjectivity meta).score = (if objBiased meta.html then 2 else 4) ∧
    (SJ.scoreObjectivity meta).score = (if objBiased meta.html then 3 else 4) ∧
    ((DT.scoreObjectivity meta).score = 2 ∨ (DT.scoreObjectivity meta).score = 4) ∧
    ((SJ.scoreObjectivity meta).score = 3 ∨ (SJ.scoreObjectivity meta).score = 4) := by
  rcases Bool.eq_false_or_eq_true (objBiased meta.html) with h | h <;>
    simp [DT.scoreObjectivity, SJ.scoreObjectivity, h]

/-- C5 counterexample: on biased content (an opinion marker with no
methods/references markers) the Objectivity evaluator of `src/api/search.js`
returns 3, not the claimed 2. -/
theorem objectivity_threshold_scores_three :
    objBiased metaOpinion.html = true ∧
    (SJ.scoreObjectivity metaOpinion).score = 3 ∧
    ¬ (SJ.scoreObjectivity metaOpinion).score = 2 := by decide

/-- C4 (amended): both handlers return only CREDIBLE results, truncated to the
requested count clamped to at most 12; the threshold handler
(`src/api/search.js`) additionally sorts descending by score_total, while the
decision-tree handler returns the credible results in pool order, unsorted. -/
theorem results_credible_sorted_truncated (analyzedS : List SJ.Result)
    (analyzedD : List DT.ScoredResult) (maxParam : String)
    (hl : 0 ≤ computeLimit maxParam) :
    (∀ r ∈ SJ.assembleResults analyzedS (computeLimit maxParam), r.verdict = "CREDIBLE") ∧
    List.Pairwise (fun a b : SJ.Result => b.score_total ≤ a.score_total)
      (SJ.assembleResults analyzedS (computeLimit maxParam)) ∧
    (SJ.assembleResults analyzedS (computeLimit maxParam)).length ≤ (computeLimit maxParam).toNat ∧
    computeLimit maxParam ≤ 12 ∧
    (∀ r ∈ DT.assembleResults analyzedD (computeLimit maxParam), r.verdict = "CREDIBLE") ∧
    (DT.assembleResults analyzedD (computeLimit maxParam)).length ≤ (computeLimit maxParam).toNat := by
  have hslice : ∀ {α : Type} (l : List α),
      jsSliceTo l (computeLimit maxParam) = l.take (computeLimit maxParam).toNat := by
    intro α l
    simp only [jsSliceTo]
    rw [if_neg (by omega)]
  have htr : ∀ a b c : SJ.Result,
      decide (b.score_total ≤ a.score_total) = true →
      decide (c.score_total ≤ b.score_total) = true →
      decide (c.score_total ≤ a.score_total) = true := by
    intro a b c h1 h2
    simp only [decide_eq_true_iff] at h1 h2 ⊢
    omega
  have htot : ∀ a b : SJ.Result,
      (decide (b.score_total ≤ a.score_total) || decide (a.score_total ≤ b.score_total)) = true := by
    intro a b
    simp only [Bool.or_eq_true, decide_eq_true_iff]
    omega
  refine ⟨?_, ?_, ?_, ?_, ?_, ?_⟩
  · intro r hr
    simp only [SJ.assembleResults, hslice] at hr
    have hr2 := List.take_subset _ _ hr
    rw [(List.mergeSort_perm _ _).mem_iff] at hr2
    have hf := (List.mem_filter.mp hr2).2
    simpa [beq_iff_eq] using hf
  · simp only [SJ.assembleResults, hslice]
    refine List.Pairwise.sublist (List.take_sublist _ _) ?_
    have hs := List.sorted_mergeSort htr htot (analyzedS.filter (fun x => x.verdict == "CREDIBLE"))
    exact hs.imp (fun h => by simpa [decide_eq_true_iff] using h)
  · simp only [SJ.assembleResults, hslice]
    exact List.length_take_le _ _
  · simp only [computeLimit]
    exact min_le_right _ _
  · intro r hr
    simp only [DT.assembleResults, hslice] at hr
    have hr2 := List.take_subset _ _ hr
    have hf := (List.mem_filter.mp hr2).2
    simpa [beq_iff_eq] using hf
  · simp only [DT.assembleResults, hslice]
    exact List.length_take_le _ _

theorem results_credible_sorted_truncated_witness :
    (∀ r ∈ SJ.assembleResults [] (computeLimit "8"), r.verdict = "CREDIBLE") ∧
    List.Pairwise (fun a b : SJ.Result => b.score_total ≤ a.score_total)
      (SJ.assembleResults [] (computeLimit "8")) ∧
    (SJ.assembleResults [] (computeLimit "8")).length ≤ (computeLimit "8").toNat ∧
    computeLimit "8" ≤ 12 ∧
    (∀ r ∈ DT.assembleResults [cexLow, cexHigh] (computeLimit "8"), r.verdict = "CREDIBLE") ∧
    (DT.assembleResults [cexLow, cexHigh] (computeLimit "8")).length ≤ (computeLimit "8").toNat :=
  results_credible_sorted_truncated [] [cexLow, cexHigh] "8" (by decide)

/-- C4 counterexample: the decision-tree handler performs no sort — a credible
pool whose totals arrive as [26, 27] is returned in that order, which is not
descending by scoreTotal. -/
theorem decision_tree_results_not_sorted :
    (DT.assembleResults [cexLow, cexHigh] 8).map DT.ScoredResult.score_total = [26, 27] ∧
    ¬ List.Pairwise (fun a b : DT.ScoredResult => b.score_total ≤ a.score_total)
        (DT.assembleResults [cexLow, cexHigh] 8) := by
  constructor
  · decide
  · intro h
    rw [show DT.assembleResults [cexLow, cexHigh] 8 = [cexLow, cexHigh] by decide] at h
    have hc := (List.pairwise_cons.mp h).1 cexHigh (by simp)
    revert hc
    decide
